import Mathlib

/-!
Verification of the instant-analogy-generator backend (src/backend).

The Python source is shallowly embedded: handlers become pure functions,
the Mongo collections become explicit lists threaded through each
operation, raised `HTTPException`s become explicit error values, and the
external collaborators (bcrypt, the jose JWT library, `json.loads`, the
LLM client) are modelled as parameters or, where the spec fixes their
behaviour, as definitions marked `Modelled from the spec:`.
-/

/-- An HTTP error as raised by `fastapi.HTTPException`: a status code and
a detail message. -/
structure HttpErr where
  status : Nat
  detail : String
deriving DecidableEq, Repr

/- ------------------------------------------------------------------
Password policy (src/backend/auth.py, validate_password, lines 7-13).
The source checks the Python regex
  ^(?=.*[0-9])(?=.*[a-z])(?=.*[A-Z])(?=.*[@#$%^&+=!]).{8,}$
with re.match and no DOTALL/MULTILINE flags.  We embed the exact
semantics of this fixed pattern:
  * each lookahead (?=.*[C]) at position 0 matches iff some character of
    class C occurs before any newline (since `.` never matches a
    newline);
  * `.{8,}$` matches iff there is a k with 8 <= k <= |s| such that the
    first k characters contain no newline and `$` matches at position k,
    where `$` (without MULTILINE) matches at the end of the string or
    just before a single trailing newline.
------------------------------------------------------------------ -/

/-- The fixed special-character class `[@#$%^&+=!]` of the policy regex. -/
def isSpecialChar (c : Char) : Bool :=
  c == '@' || c == '#' || c == '$' || c == '%' || c == '^' ||
  c == '&' || c == '+' || c == '=' || c == '!'

/-- Semantics of the lookahead `(?=.*[cls])` applied at position 0 of `s`
without DOTALL: some character of the class occurs before any newline. -/
def lookahead (cls : Char → Bool) (s : List Char) : Bool :=
  (s.takeWhile (fun c => c != '\n')).any cls

/-- Semantics of `$` (no MULTILINE) at position `k` of `s`: the end of the
string, or just before one trailing newline. -/
def endAnchor (s : List Char) (k : Nat) : Bool :=
  k == s.length || (k + 1 == s.length && s.drop k == ['\n'])

/-- Semantics of `.{8,}$` applied at position 0 of `s`: some k with
8 <= k <= |s| such that the first k characters contain no newline and
`$` matches at position k. -/
def tailMatch (s : List Char) : Bool :=
  (List.range (s.length + 1)).any (fun k =>
    decide (8 ≤ k) && (s.take k).length == k &&
    (s.take k).all (fun c => c != '\n') && endAnchor s k)

/-- Whether `re.match` of the full policy pattern of `validate_password`
accepts the password. -/
def passwordRegexAccepts (p : String) : Bool :=
  lookahead Char.isDigit p.data && lookahead Char.isLower p.data &&
  lookahead Char.isUpper p.data && lookahead isSpecialChar p.data &&
  tailMatch p.data

/-- The policy as the spec words it: at least 8 characters, at least one
digit, one lowercase letter, one uppercase letter, and one character from
the special set @#$%^&+=!. -/
def policySpec (p : String) : Bool :=
  decide (8 ≤ p.length) && p.data.any Char.isDigit &&
  p.data.any Char.isLower && p.data.any Char.isUpper &&
  p.data.any isSpecialChar

/-- The exact detail string of the policy-violation HTTPException in
validate_password. -/
def policyDetail : String :=
  "Password must be ≥8 chars, include 1 uppercase, 1 lowercase, 1 number, 1 special character (@#$%^&+=!)"

/-- Signup request body (src/backend/models.py, UserCreate). -/
structure UserCreate where
  username : String
  email : String
  password : String
deriving DecidableEq, Repr

/-- A stored user document (src/backend/models.py, UserInDB; the shape
inserted by create_user). -/
structure UserRec where
  username : String
  email : String
  hashed_password : String
deriving DecidableEq, Repr

/-- create_user (src/backend/auth.py, lines 15-26) over an explicit user
store.  Password validation raises first; then the duplicate-email check
(`find_one` on email); then bcrypt hashing and `insert_one`.  bcrypt is an
external library, passed in as the abstract function `hashFn`.  The pair
returned is (outcome, post-state of the users collection). -/
def create_user (hashFn : String → String) (store : List UserRec)
    (u : UserCreate) : Except HttpErr String × List UserRec :=
  if passwordRegexAccepts u.password = false then
    (Except.error ⟨400, policyDetail⟩, store)
  else if store.any (fun r => r.email == u.email) then
    (Except.error ⟨400, "Email already registered"⟩, store)
  else
    (Except.ok "User created successfully",
     store ++ [⟨u.username, u.email, hashFn u.password⟩])

/-- authenticate_user (src/backend/auth.py, lines 28-34): `find_one` on
email (first matching document), then bcrypt verification via the
abstract `verify`.  Returning `none` models returning `False`; on success
the full `UserInDB` document is returned. -/
def authenticate_user (verify : String → String → Bool)
    (store : List UserRec) (email password : String) : Option UserRec :=
  match store.find? (fun r => r.email == email) with
  | none => none
  | some user =>
    if verify password user.hashed_password then some user else none

/- ------------------------------------------------------------------
Token service (src/backend/utils.py, lines 20-46).
------------------------------------------------------------------ -/

/-- A JSON value (payload entries are strings from the `Dict[str, str]`
claims plus the numeric `exp` timestamp; history results and quizzes use
the full shape).  Numbers are modelled as `Nat`, which covers every value
the handlers produce (timestamps). -/
inductive JVal where
  | null : JVal
  | bool : Bool → JVal
  | num : Nat → JVal
  | str : String → JVal
  | arr : List JVal → JVal
  | obj : List (String × JVal) → JVal

/-- Python dict update for one key on an insertion-ordered assoc list:
replace the value in place when the key is present, append otherwise
(models `to_encode.update` with a single key). -/
def dictUpdate (fs : List (String × JVal)) (k : String) (v : JVal) :
    List (String × JVal) :=
  if fs.any (fun kv => kv.1 == k) then
    fs.map (fun kv => if kv.1 == k then (k, v) else kv)
  else fs ++ [(k, v)]

/-- Python dict lookup on an insertion-ordered assoc list. -/
def dictGet (fs : List (String × JVal)) (k : String) : Option JVal :=
  (fs.find? (fun kv => kv.1 == k)).map (fun kv => kv.2)

/-- The module-level signing secret of src/backend/utils.py line 22. -/
def SECRET_KEY : String := "your_super_secret_key"

/-- The default token lifetime of src/backend/utils.py line 24, in
minutes. -/
def ACCESS_TOKEN_EXPIRE_MINUTES : Nat := 60

/-- Serialization of a payload value, used only to feed the modelled
MAC. -/
def serializeJV : JVal → String
  | JVal.null => "z"
  | JVal.bool b => "b:" ++ toString b
  | JVal.num n => "n:" ++ toString n
  | JVal.str s => "s:" ++ s
  | JVal.arr _ => "a"
  | JVal.obj _ => "o"

/-- Serialization of a token payload, used only to feed the modelled
MAC. -/
def serializePayload : List (String × JVal) → String
  | [] => ""
  | kv :: rest => kv.1 ++ "=" ++ serializeJV kv.2 ++ ";" ++ serializePayload rest

/-- A deterministic string hash (64-bit polynomial hash). -/
def strHash (s : String) : Nat :=
  s.data.foldl (fun a c => (a * 131 + c.toNat) % (2 ^ 64)) 5381

/-- Modelled from the spec: the HMAC-based signature of the jose JWT
library ("signs with a server-held symmetric secret using an HMAC-based
scheme").  The jose library itself is not part of the repository; the
model only needs the signature to be a deterministic function of the
secret and the payload, recomputed and compared on verification. -/
def macSign (secret : String) (payload : List (String × JVal)) : Nat :=
  strHash (secret ++ "|" ++ serializePayload payload)

/-- Modelled from the spec: a token string is opaque; it is either the
well-formed serialization of a signed payload or malformed text that the
jose decoder rejects. -/
inductive TokenStr where
  | wf : List (String × JVal) → Nat → TokenStr
  | malformed : String → TokenStr

/-- create_access_token (src/backend/utils.py, lines 26-36): copy the
claims, set the `exp` entry to now plus the ttl (default 60 minutes; any
caller-supplied `exp` entry is overwritten by `to_encode.update`), and
sign with the module secret.  Times are UTC seconds; `ttl` is the
`expires_delta` argument in seconds. -/
def create_access_token (now : Nat) (data : List (String × String))
    (ttl : Option Nat) : TokenStr :=
  let expire := now + ttl.getD (60 * ACCESS_TOKEN_EXPIRE_MINUTES)
  let payload :=
    dictUpdate (data.map (fun kv => (kv.1, JVal.str kv.2))) "exp"
      (JVal.num expire)
  TokenStr.wf payload (macSign SECRET_KEY payload)

/-- decode_access_token (src/backend/utils.py, lines 38-46): jose's
`jwt.decode` verifies the signature first, then the `exp` claim (an int,
or a string jose coerces with `int`; the token is expired when exp < now;
a missing exp claim skips the check), and every JWTError is caught and
mapped to `None`.  Totality of this function models that no exception
escapes. -/
def decode_access_token (now : Nat) : TokenStr → Option (List (String × JVal))
  | TokenStr.malformed _ => none
  | TokenStr.wf payload sig =>
    if sig == macSign SECRET_KEY payload then
      match dictGet payload "exp" with
      | some (JVal.num e) => if e < now then none else some payload
      | some (JVal.str v) =>
        match v.toNat? with
        | some e => if e < now then none else some payload
        | none => none
      | some _ => none
      | none => some payload
    else none

/- ------------------------------------------------------------------
Login route (src/backend/main.py, lines 73-79).
------------------------------------------------------------------ -/

/-- The body of a successful /login response. -/
structure LoginResponse where
  access_token : TokenStr
  token_type : String

/-- The /login handler (src/backend/main.py, lines 73-79): a falsy
authenticate_user result raises 401 "Invalid credentials"; otherwise a
token is issued over the single claim {email}. -/
def login (verify : String → String → Bool) (now : Nat)
    (store : List UserRec) (email password : String) :
    Except HttpErr LoginResponse :=
  match authenticate_user verify store email password with
  | none => Except.error ⟨401, "Invalid credentials"⟩
  | some u =>
    Except.ok ⟨create_access_token now [("email", u.email)] none, "bearer"⟩

/- ------------------------------------------------------------------
History store (src/backend/main.py, lines 174-226) over an explicit
list of documents.
------------------------------------------------------------------ -/

/-- A document of the search_history collection, as inserted by the
/generate handler (src/backend/main.py, lines 175-182), together with its
Mongo-assigned `_id`. -/
structure HistEntry where
  id : String
  user_email : String
  concept : String
  level : String
  result : JVal
  quiz : JVal
  timestamp : Nat

/-- Whether a path string is accepted by `bson.ObjectId`: a 24-character
hexadecimal string. -/
def validObjectId (s : String) : Bool :=
  s.length == 24 && s.data.all (fun c =>
    c.isDigit || ('a' ≤ c && c ≤ 'f') || ('A' ≤ c && c ≤ 'F'))

/-- Mongo `delete_one` on the filter {_id, user_email}: remove the first
document matching both, returning (deleted_count, remaining store). -/
def deleteFirst (hist : List HistEntry) (id email : String) :
    Nat × List HistEntry :=
  match hist with
  | [] => (0, [])
  | e :: rest =>
    if e.id == id && e.user_email == email then (1, rest)
    else
      let r := deleteFirst rest id email
      (r.1, e :: r.2)

/-- The DELETE /history/{entry_id} handler (src/backend/main.py, lines
211-226): 400 on a malformed id, then `delete_one` on {_id, user_email};
a zero deleted_count raises 404 "Entry not found or unauthorized".  The
pair returned is (outcome, post-state of the history collection); the
success message is the handler's "message" field. -/
def delete_history (hist : List HistEntry) (email entry_id : String) :
    Except HttpErr String × List HistEntry :=
  if validObjectId entry_id = false then
    (Except.error ⟨400, "Invalid entry ID"⟩, hist)
  else
    let r := deleteFirst hist entry_id email
    if r.1 == 0 then
      (Except.error ⟨404, "Entry not found or unauthorized"⟩, r.2)
    else (Except.ok "History entry deleted", r.2)

/-- The descending-timestamp order used by `.sort("timestamp", -1)`:
`a` comes before `b` when `a` is at least as new. -/
def newestFirst (a b : HistEntry) : Prop := b.timestamp ≤ a.timestamp

instance : DecidableRel newestFirst :=
  fun a b => Nat.decLe b.timestamp a.timestamp

instance : IsTotal HistEntry newestFirst :=
  ⟨fun a b => Nat.le_total b.timestamp a.timestamp⟩

instance : IsTrans HistEntry newestFirst :=
  ⟨fun _ _ _ h1 h2 => Nat.le_trans h2 h1⟩

/-- The GET /history handler (src/backend/main.py, lines 199-206):
`find` on {user_email} sorted by timestamp descending.  The sort is
modelled by a stable comparison sort over the filtered documents. -/
def get_history (hist : List HistEntry) (email : String) : List HistEntry :=
  List.insertionSort newestFirst (hist.filter (fun e => e.user_email == email))

/- ------------------------------------------------------------------
Generate and quiz pipeline (src/backend/main.py, lines 96-194 and
231-274).  `json.loads` is the Python standard library, passed in as the
abstract `parse` returning either a value or the exception message; the
two LLM completions are passed in as the raw response texts.
------------------------------------------------------------------ -/

/-- The characters removed by Python `str.strip()` with no argument
(ASCII whitespace; other Unicode whitespace is not modelled — no claim
depends on it). -/
def isPyWhitespace (c : Char) : Bool :=
  c == ' ' || c == '\t' || c == '\n' || c == '\r' || c == '\x0b' || c == '\x0c'

/-- Python `str.strip()`: drop leading and trailing whitespace. -/
def pyStrip (s : String) : String :=
  ⟨((s.data.dropWhile isPyWhitespace).reverse.dropWhile isPyWhitespace).reverse⟩

/-- Python `str.split(sep)` for a one-character separator: split on every
occurrence, keeping empty pieces (so the empty string yields [""]). -/
def splitChar (sep : Char) : List Char → List (List Char)
  | [] => [[]]
  | c :: rest =>
    let r := splitChar sep rest
    if c == sep then [] :: r
    else
      match r with
      | [] => [[c]]
      | h :: t => (c :: h) :: t

/-- Python `"\n".join(pieces)`. -/
def joinNl : List (List Char) → List Char
  | [] => []
  | [x] => x
  | x :: xs => x ++ '\n' :: joinNl xs

/-- The code-fence stripping of src/backend/main.py lines 119-122 (and
164-167, 265-268): when the text starts with three backticks and has at
least 3 lines, drop the first and last line and rejoin with newlines. -/
def stripFence (t : String) : String :=
  if ("```".data).isPrefixOf t.data then
    let lines := splitChar '\n' t.data
    if 3 ≤ lines.length then ⟨joinNl ((lines.drop 1).dropLast)⟩ else t
  else t

/-- Python `dict.setdefault(k, v)` on an insertion-ordered assoc list:
leave the dict alone when the key is present, append the entry
otherwise. -/
def setdefault (fs : List (String × JVal)) (k : String) (v : JVal) :
    List (String × JVal) :=
  if fs.any (fun kv => kv.1 == k) then fs else fs ++ [(k, v)]

/-- The analogy normalization of src/backend/main.py lines 118-136: strip
the raw LLM text, strip a code fence, `json.loads` it and `setdefault`
the four keys — all inside one `try`.  A parse failure, or a parsed
non-dict value (whose missing `.setdefault` raises `AttributeError`
inside the same `try`), falls back to the degraded object carrying the
fence-stripped text in the analogy field. -/
def normalize_ai (parse : String → Except String JVal) (aiTextRaw : String) :
    JVal :=
  let t := stripFence (pyStrip aiTextRaw)
  match parse t with
  | Except.ok (JVal.obj fs) =>
    JVal.obj (setdefault (setdefault (setdefault (setdefault fs
      "tagline" (JVal.str "")) "analogy" (JVal.str ""))
      "mapping" (JVal.arr [])) "limitations" (JVal.arr []))
  | _ =>
    JVal.obj [("tagline", JVal.str ""), ("analogy", JVal.str t),
      ("mapping", JVal.arr []), ("limitations", JVal.arr [])]

/-- The quiz normalization inside /generate (src/backend/main.py lines
163-172): strip, strip a code fence, `json.loads`; on failure substitute
{"concept": concept, "questions": []} — the raw text is dropped. -/
def normalize_quiz (parse : String → Except String JVal) (concept : String)
    (quizTextRaw : String) : JVal :=
  let t := stripFence (pyStrip quizTextRaw)
  match parse t with
  | Except.ok j => j
  | Except.error _ =>
    JVal.obj [("concept", JVal.str concept), ("questions", JVal.arr [])]

/-- A Python exception as it reaches the blanket `except Exception`
blocks: an `HTTPException` or a `json.JSONDecodeError` carrying its
message. -/
inductive PyExn where
  | http : HttpErr → PyExn
  | jsonDecode : String → PyExn

/-- Python `str(e)` for the exceptions above; starlette's HTTPException
prints as "{status_code}: {detail}". -/
def strOfPyExn : PyExn → String
  | PyExn.http e => toString e.status ++ ": " ++ e.detail
  | PyExn.jsonDecode m => m

/-- The blanket `try ... except Exception as e: raise HTTPException(500,
str(e))` wrapper of the /generate and /quiz handlers. -/
def tryWrap500 {α : Type} : Except PyExn α → Except HttpErr α
  | Except.ok a => Except.ok a
  | Except.error e => Except.error ⟨500, strOfPyExn e⟩

/-- The body of a successful /generate response (src/backend/main.py,
lines 185-191). -/
structure GenResponse where
  concept_received : String
  level : String
  user : String
  result : JVal
  quiz : JVal

/-- The body of the /generate handler inside its `try` (src/backend/
main.py, lines 98-191): strip the concept, raise 400 when empty,
normalize the two LLM texts, insert the history document (with the
Mongo-assigned id `newId` and timestamp `now`), and build the response.
Returns the raised exception or (response, post-state of the history
collection). -/
def generate_inner (parse : String → Except String JVal)
    (aiText quizText newId : String) (now : Nat) (hist : List HistEntry)
    (email concept level : String) :
    Except PyExn (GenResponse × List HistEntry) :=
  let c := pyStrip concept
  if c = "" then Except.error (PyExn.http ⟨400, "Concept must not be empty"⟩)
  else
    let result := normalize_ai parse aiText
    let quiz := normalize_quiz parse c quizText
    let entry : HistEntry := ⟨newId, email, c, level, result, quiz, now⟩
    Except.ok (⟨c, level, email, result, quiz⟩, hist ++ [entry])

/-- The full /generate handler (src/backend/main.py, lines 96-194): the
inner body wrapped by `except Exception as e: raise HTTPException(500,
str(e))` — which also catches the inner 400 `HTTPException`, since
`HTTPException` subclasses `Exception`.  On an exception the history
collection is unchanged. -/
def generate (parse : String → Except String JVal)
    (aiText quizText newId : String) (now : Nat) (hist : List HistEntry)
    (email concept level : String) :
    Except HttpErr GenResponse × List HistEntry :=
  match generate_inner parse aiText quizText newId now hist email concept level with
  | Except.ok (r, h) => (Except.ok r, h)
  | Except.error e => (Except.error ⟨500, strOfPyExn e⟩, hist)

/-- The /quiz handler (src/backend/main.py, lines 231-274): inside its
`try`, a blank concept or an empty analogy dict raises 400; the LLM quiz
text is stripped, fence-stripped and parsed by a bare `json.loads` whose
failure raises `JSONDecodeError`; the blanket `except` maps every raised
exception to a 500. -/
def generate_quiz (parse : String → Except String JVal)
    (quizText concept : String) (result : List (String × JVal)) :
    Except HttpErr JVal :=
  tryWrap500 (
    let c := pyStrip concept
    if c = "" || result.isEmpty then
      Except.error (PyExn.http ⟨400, "Concept and analogy result are required"⟩)
    else
      match parse (stripFence (pyStrip quizText)) with
      | Except.ok j => Except.ok j
      | Except.error msg => Except.error (PyExn.jsonDecode msg))

/-- Whether a JSON value is an object containing the given key. -/
def hasKey (j : JVal) (k : String) : Bool :=
  match j with
  | JVal.obj fs => fs.any (fun kv => kv.1 == k)
  | _ => false

/- ------------------------------------------------------------------
Theorems.
------------------------------------------------------------------ -/

theorem takeWhile_ne_newline_eq_self :
    ∀ (s : List Char), '\n' ∉ s → s.takeWhile (fun c => c != '\n') = s
  | [], _ => rfl
  | c :: cs, h => by
    have hcne : c ≠ '\n' := fun heq => h (heq ▸ List.mem_cons_self c cs)
    have hc : (c != '\n') = true := bne_iff_ne.mpr hcne
    have hrest : cs.takeWhile (fun c => c != '\n') = cs :=
      takeWhile_ne_newline_eq_self cs (fun hm => h (List.mem_cons_of_mem c hm))
    simp [List.takeWhile_cons, hc, hrest]

theorem any_of_lookahead {cls : Char → Bool} {s : List Char}
    (h : lookahead cls s = true) : s.any cls = true := by
  unfold lookahead at h
  rw [List.any_eq_true] at h ⊢
  obtain ⟨c, hc, hcls⟩ := h
  exact ⟨c, (List.takeWhile_sublist _).subset hc, hcls⟩

theorem length_of_tailMatch {s : List Char} (h : tailMatch s = true) :
    8 ≤ s.length := by
  unfold tailMatch at h
  rw [List.any_eq_true] at h
  obtain ⟨k, _, hcond⟩ := h
  simp only [Bool.and_eq_true, decide_eq_true_eq, beq_iff_eq] at hcond
  have hlen : (s.take k).length = k := hcond.1.1.2
  have hk : k ≤ s.length := by
    rw [List.length_take] at hlen
    omega
  omega

/-- Acceptance by the policy regex implies the five spec rules (for every
password). -/
theorem passwordRegex_implies_policy (p : String)
    (h : passwordRegexAccepts p = true) : policySpec p = true := by
  simp only [passwordRegexAccepts, Bool.and_eq_true] at h
  obtain ⟨⟨⟨⟨hd, hl⟩, hu⟩, hs⟩, ht⟩ := h
  simp only [policySpec, Bool.and_eq_true, decide_eq_true_eq]
  exact ⟨⟨⟨⟨length_of_tailMatch ht, any_of_lookahead hd⟩,
    any_of_lookahead hl⟩, any_of_lookahead hu⟩, any_of_lookahead hs⟩

/-- For newline-free passwords the five spec rules imply acceptance by
the policy regex. -/
theorem policy_implies_passwordRegex (p : String)
    (hn : '\n' ∉ p.data) (h : policySpec p = true) :
    passwordRegexAccepts p = true := by
  simp only [policySpec, Bool.and_eq_true, decide_eq_true_eq] at h
  obtain ⟨⟨⟨⟨h8, hd⟩, hl⟩, hu⟩, hs⟩ := h
  have htw : p.data.takeWhile (fun c => c != '\n') = p.data :=
    takeWhile_ne_newline_eq_self p.data hn
  simp only [passwordRegexAccepts, lookahead, htw, Bool.and_eq_true]
  refine ⟨⟨⟨⟨hd, hl⟩, hu⟩, hs⟩, ?_⟩
  unfold tailMatch
  rw [List.any_eq_true]
  refine ⟨p.data.length, List.mem_range.mpr (Nat.lt_succ_self _), ?_⟩
  have h8d : 8 ≤ p.data.length := h8
  simp only [Bool.and_eq_true, decide_eq_true_eq, beq_iff_eq, endAnchor,
    List.take_length, List.length_take, Nat.min_self, List.all_eq_true,
    beq_self_eq_true, Bool.or_eq_true]
  refine ⟨⟨⟨h8d, trivial⟩, ?_⟩, Or.inl trivial⟩
  intro c hc
  exact bne_iff_ne.mpr (fun heq => hn (heq ▸ hc))

/-- C1 (amended): for every password without a newline character that
satisfies the five policy rules, create_user with a fresh email succeeds
and inserts the user; for every password violating the five rules
(newline or not), create_user fails with the 400 policy error and the
user store is unchanged.  (The unamended claim fails on passwords that
contain a newline: the regex's `.` and `$` treat newlines specially, see
the counterexample.) -/
theorem create_user_policy (hashFn : String → String) (store : List UserRec)
    (u : UserCreate) :
    ('\n' ∉ u.password.data → policySpec u.password = true →
      store.any (fun r => r.email == u.email) = false →
      create_user hashFn store u =
        (Except.ok "User created successfully",
         store ++ [⟨u.username, u.email, hashFn u.password⟩]))
  ∧ (policySpec u.password = false →
      create_user hashFn store u = (Except.error ⟨400, policyDetail⟩, store)) := by
  constructor
  · intro hn hp hdup
    have hacc : passwordRegexAccepts u.password = true :=
      policy_implies_passwordRegex u.password hn hp
    simp [create_user, hacc, hdup]
  · intro hp
    have hacc : passwordRegexAccepts u.password = false := by
      cases hacc : passwordRegexAccepts u.password
      · rfl
      · exact absurd (passwordRegex_implies_policy u.password hacc) (by simp [hp])
    simp [create_user, hacc]

/-- C1 (counterexample): the password "Aa1!\naaaa" has 9 characters, a
digit, a lowercase letter, an uppercase letter and a special character,
yet the regex of validate_password rejects it (its `.{8,}` cannot cross
the newline), so create_user raises the 400 policy error on it. -/
theorem create_user_policy_cex :
    policySpec "Aa1!\naaaa" = true
  ∧ passwordRegexAccepts "Aa1!\naaaa" = false
  ∧ create_user (fun pw => pw) [] ⟨"alice", "a@x.com", "Aa1!\naaaa"⟩
      = (Except.error ⟨400, policyDetail⟩, []) :=
  ⟨by decide, by decide, by rfl⟩

/-- C1 (witness): the amended theorem applied to the compliant password
"Aa1!aaaa" on an empty store, and to the non-compliant "short". -/
theorem create_user_policy_witness :
    create_user (fun pw => pw) [] ⟨"alice", "a@x.com", "Aa1!aaaa"⟩
      = (Except.ok "User created successfully",
         [⟨"alice", "a@x.com", "Aa1!aaaa"⟩])
  ∧ create_user (fun pw => pw) [] ⟨"bob", "b@x.com", "short"⟩
      = (Except.error ⟨400, policyDetail⟩, []) :=
  ⟨(create_user_policy (fun pw => pw) [] ⟨"alice", "a@x.com", "Aa1!aaaa"⟩).1
      (by decide) (by decide) (by decide),
   (create_user_policy (fun pw => pw) [] ⟨"bob", "b@x.com", "short"⟩).2
      (by decide)⟩

theorem any_key_map (data : List (String × String)) (k : String) :
    ((data.map (fun kv => (kv.1, JVal.str kv.2))).any (fun kv => kv.1 == k))
      = data.any (fun kv => kv.1 == k) := by
  induction data with
  | nil => rfl
  | cons a l ih => simp [List.map_cons, List.any_cons, ih]

theorem find?_append_left_none {α : Type} {p : α → Bool} :
    ∀ (l1 l2 : List α), l1.any p = false → (l1 ++ l2).find? p = l2.find? p
  | [], _, _ => rfl
  | a :: l1, l2, h => by
    rw [List.any_cons, Bool.or_eq_false_iff] at h
    rw [List.cons_append, List.find?_cons, h.1]
    exact find?_append_left_none l1 l2 h.2

theorem dictUpdate_fresh {fs : List (String × JVal)} {k : String} {v : JVal}
    (h : fs.any (fun kv => kv.1 == k) = false) :
    dictUpdate fs k v = fs ++ [(k, v)] := by
  simp [dictUpdate, h]

/-- The payload built by create_access_token for a claims map whose keys
avoid "exp": the mapped claims followed by the exp entry. -/
theorem create_token_payload (data : List (String × String)) (now : Nat)
    (h : data.any (fun kv => kv.1 == "exp") = false) :
    create_access_token now data none =
      TokenStr.wf
        (data.map (fun kv => (kv.1, JVal.str kv.2)) ++
          [("exp", JVal.num (now + 3600))])
        (macSign SECRET_KEY
          (data.map (fun kv => (kv.1, JVal.str kv.2)) ++
            [("exp", JVal.num (now + 3600))])) := by
  have hmap : (data.map (fun kv => (kv.1, JVal.str kv.2))).any
      (fun kv => kv.1 == "exp") = false := by
    rw [any_key_map]
    exact h
  simp only [create_access_token, Option.getD, ACCESS_TOKEN_EXPIRE_MINUTES,
    dictUpdate_fresh hmap]

/-- C2 (amended): for every claims map that does not itself use the
reserved key "exp", a token issued with the default ttl and verified at
issue time returns the original claims (as the payload: the claims plus
the appended exp entry, now + 3600 seconds); verified at any time after
the expiry timestamp it returns none.  (The unamended claim fails when
the claims map contains an "exp" entry: create_access_token overwrites
it, see the counterexample.) -/
theorem token_roundtrip (data : List (String × String)) (now t : Nat)
    (h : data.any (fun kv => kv.1 == "exp") = false) :
    decode_access_token now (create_access_token now data none)
      = some (data.map (fun kv => (kv.1, JVal.str kv.2)) ++
          [("exp", JVal.num (now + 3600))])
  ∧ (now + 3600 < t →
      decode_access_token t (create_access_token now data none) = none) := by
  have hmap : (data.map (fun kv => (kv.1, JVal.str kv.2))).any
      (fun kv => kv.1 == "exp") = false := by
    rw [any_key_map]
    exact h
  rw [create_token_payload data now h]
  have hget : dictGet
      (data.map (fun kv => (kv.1, JVal.str kv.2)) ++
        [("exp", JVal.num (now + 3600))]) "exp"
      = some (JVal.num (now + 3600)) := by
    unfold dictGet
    rw [find?_append_left_none _ _ hmap]
    simp [List.find?_cons]
  constructor
  · simp only [decode_access_token, beq_self_eq_true, if_true, hget]
    rw [if_neg (by omega)]
  · intro ht
    simp only [decode_access_token, beq_self_eq_true, if_true, hget]
    rw [if_pos ht]

set_option maxRecDepth 100000 in
/-- C2 (counterexample): for the claims map {"exp": "x"} the issued token
decodes to a payload whose only entry is the numeric expiry — the
original claim ("exp", "x") is overwritten by create_access_token and not
returned. -/
theorem token_roundtrip_cex :
    decode_access_token 0 (create_access_token 0 [("exp", "x")] none)
      = some [("exp", JVal.num 3600)]
  ∧ ("exp", JVal.str "x") ∉ [("exp", JVal.num 3600)] :=
  ⟨by rfl, by
    intro hmem
    rw [List.mem_singleton] at hmem
    exact JVal.noConfusion (congrArg Prod.snd hmem)⟩

/-- C2 (witness): the amended theorem applied to the claims map
{"email": "a@x.com"} issued at time 0 and checked at times 0 and 4000. -/
theorem token_roundtrip_witness :
    decode_access_token 0 (create_access_token 0 [("email", "a@x.com")] none)
      = some [("email", JVal.str "a@x.com"), ("exp", JVal.num 3600)]
  ∧ decode_access_token 4000 (create_access_token 0 [("email", "a@x.com")] none)
      = none :=
  ⟨(token_roundtrip [("email", "a@x.com")] 0 4000 (by decide)).1,
   (token_roundtrip [("email", "a@x.com")] 0 4000 (by decide)).2 (by decide)⟩

/-- C3 (confirmed): decode_access_token maps each of the three failure
causes to the same result, none, and being a total function it raises no
exception: a malformed token string, a well-formed token whose signature
differs from the recomputed MAC (in particular any tampered signature),
and a correctly signed token whose expiry has passed all yield none, so
the three causes are indistinguishable to the caller. -/
theorem decode_failure_modes (now : Nat) :
    (∀ s, decode_access_token now (TokenStr.malformed s) = none)
  ∧ (∀ payload sig, sig ≠ macSign SECRET_KEY payload →
      decode_access_token now (TokenStr.wf payload sig) = none)
  ∧ (∀ payload sig e, dictGet payload "exp" = some (JVal.num e) → e < now →
      decode_access_token now (TokenStr.wf payload sig) = none) := by
  refine ⟨fun s => rfl, ?_, ?_⟩
  · intro payload sig hne
    simp [decode_access_token, beq_eq_false_iff_ne.mpr hne]
  · intro payload sig e hget hlt
    cases hsig : (sig == macSign SECRET_KEY payload)
    · simp [decode_access_token, hsig]
    · simp [decode_access_token, hsig, hget, hlt]

set_option maxRecDepth 100000 in
/-- C3 (witness): the theorem applied to a garbage token, a token whose
signature 0 differs from the MAC of its payload, and an expired token
checked at time 5000. -/
theorem decode_failure_modes_witness :
    decode_access_token 5 (TokenStr.malformed "garbage") = none
  ∧ decode_access_token 5 (TokenStr.wf [("email", JVal.str "a@x.com")] 0) = none
  ∧ decode_access_token 5000 (TokenStr.wf [("exp", JVal.num 10)] 0) = none :=
  ⟨(decode_failure_modes 5).1 "garbage",
   (decode_failure_modes 5).2.1 [("email", JVal.str "a@x.com")] 0 (by decide),
   (decode_failure_modes 5000).2.2 [("exp", JVal.num 10)] 0 10 (by rfl) (by decide)⟩

/-- C4 (confirmed): an email with no stored user and any password, and a
stored user with a non-matching password, produce the identical outcome:
authenticate_user returns none (the model of returning False) in both
cases, and the /login handler maps both to the very same 401
"Invalid credentials" error, so the caller cannot distinguish a
lookup-miss from a password-mismatch. -/
theorem login_no_enumeration (verify : String → String → Bool) (now : Nat)
    (store : List UserRec) (email1 pw1 email2 pw2 : String) (u : UserRec) :
    (store.find? (fun r => r.email == email1) = none →
      authenticate_user verify store email1 pw1 = none
      ∧ login verify now store email1 pw1
          = Except.error ⟨401, "Invalid credentials"⟩)
  ∧ (store.find? (fun r => r.email == email2) = some u →
      verify pw2 u.hashed_password = false →
      authenticate_user verify store email2 pw2 = none
      ∧ login verify now store email2 pw2
          = Except.error ⟨401, "Invalid credentials"⟩) := by
  constructor
  · intro hmiss
    have hauth : authenticate_user verify store email1 pw1 = none := by
      simp [authenticate_user, hmiss]
    exact ⟨hauth, by simp [login, hauth]⟩
  · intro hfind hver
    have hauth : authenticate_user verify store email2 pw2 = none := by
      simp [authenticate_user, hfind, hver]
    exact ⟨hauth, by simp [login, hauth]⟩

/-- C4 (witness): the theorem applied to the store holding only bob, with
a missing email and with bob's email but a wrong password, under a
verifier that compares the password to the stored hash directly. -/
theorem login_no_enumeration_witness :
    authenticate_user (fun pw h => pw == h) [⟨"bob", "real@x.com", "pw1"⟩]
      "missing@x.com" "any" = none
  ∧ login (fun pw h => pw == h) 0 [⟨"bob", "real@x.com", "pw1"⟩]
      "missing@x.com" "any" = Except.error ⟨401, "Invalid credentials"⟩
  ∧ authenticate_user (fun pw h => pw == h) [⟨"bob", "real@x.com", "pw1"⟩]
      "real@x.com" "wrongpass" = none
  ∧ login (fun pw h => pw == h) 0 [⟨"bob", "real@x.com", "pw1"⟩]
      "real@x.com" "wrongpass" = Except.error ⟨401, "Invalid credentials"⟩ :=
  ⟨((login_no_enumeration (fun pw h => pw == h) 0 [⟨"bob", "real@x.com", "pw1"⟩]
      "missing@x.com" "any" "real@x.com" "wrongpass"
      ⟨"bob", "real@x.com", "pw1"⟩).1 (by decide)).1,
   ((login_no_enumeration (fun pw h => pw == h) 0 [⟨"bob", "real@x.com", "pw1"⟩]
      "missing@x.com" "any" "real@x.com" "wrongpass"
      ⟨"bob", "real@x.com", "pw1"⟩).1 (by decide)).2,
   ((login_no_enumeration (fun pw h => pw == h) 0 [⟨"bob", "real@x.com", "pw1"⟩]
      "missing@x.com" "any" "real@x.com" "wrongpass"
      ⟨"bob", "real@x.com", "pw1"⟩).2 (by decide) (by decide)).1,
   ((login_no_enumeration (fun pw h => pw == h) 0 [⟨"bob", "real@x.com", "pw1"⟩]
      "missing@x.com" "any" "real@x.com" "wrongpass"
      ⟨"bob", "real@x.com", "pw1"⟩).2 (by decide) (by decide)).2⟩

/-- C5 (code bug): an authenticated /generate request whose concept is
whitespace-only reaches the `raise HTTPException(400, "Concept must not
be empty")` inside the handler's `try`, but the blanket `except
Exception` (HTTPException subclasses Exception) re-raises it as a 500
whose detail is `str` of the original exception — so the client receives
status 500, not the specified 400, and the history store is unchanged. -/
theorem generate_empty_concept_bug :
    generate (fun _ => Except.error "not called") "" "" "id0" 0 []
      "a@x.com" "   " "beginner"
    = (Except.error ⟨500, "400: Concept must not be empty"⟩,
       ([] : List HistEntry)) := rfl

/-- C6 (counterexample): authenticate_user returns the full UserInDB
document: for the store holding alice with stored hash "stored-hash",
a successful authentication returns a record whose hashed_password field
is exactly that stored hash — the hash is returned to the caller, so the
record does not consist of username and email only. -/
theorem authenticate_returns_hash_cex :
    authenticate_user (fun _ _ => true)
      [⟨"alice", "a@x.com", "stored-hash"⟩] "a@x.com" "pw"
      = some ⟨"alice", "a@x.com", "stored-hash"⟩
  ∧ (authenticate_user (fun _ _ => true)
      [⟨"alice", "a@x.com", "stored-hash"⟩] "a@x.com" "pw").map
        UserRec.hashed_password = some "stored-hash" :=
  ⟨by decide, by decide⟩

/-- C6 (amended): on a password match authenticate_user returns the full
stored user record — username, email AND the bcrypt hash (the UserInDB
document); the hash therefore does reach its caller.  The /login response
built from it, however, carries only the access token (whose claims map
is the single entry {"email"}) and the token type, so the hash does not
cross the HTTP boundary. -/
theorem authenticate_full_record (verify : String → String → Bool)
    (now : Nat) (store : List UserRec) (email pw : String) (u : UserRec)
    (hfind : store.find? (fun r => r.email == email) = some u)
    (hver : verify pw u.hashed_password = true) :
    authenticate_user verify store email pw = some u
  ∧ login verify now store email pw =
      Except.ok ⟨create_access_token now [("email", u.email)] none, "bearer"⟩ := by
  have hauth : authenticate_user verify store email pw = some u := by
    simp [authenticate_user, hfind, hver]
  exact ⟨hauth, by simp [login, hauth]⟩

/-- C6 (witness): the amended theorem applied to the store holding alice
with hash "stored-hash" and the equality verifier. -/
theorem authenticate_full_record_witness :
    authenticate_user (fun pw h => pw == h)
      [⟨"alice", "a@x.com", "stored-hash"⟩] "a@x.com" "stored-hash"
      = some ⟨"alice", "a@x.com", "stored-hash"⟩
  ∧ login (fun pw h => pw == h) 0 [⟨"alice", "a@x.com", "stored-hash"⟩]
      "a@x.com" "stored-hash"
      = Except.ok ⟨create_access_token 0 [("email", "a@x.com")] none, "bearer"⟩ :=
  ⟨(authenticate_full_record (fun pw h => pw == h) 0
      [⟨"alice", "a@x.com", "stored-hash"⟩] "a@x.com" "stored-hash"
      ⟨"alice", "a@x.com", "stored-hash"⟩ (by decide) (by decide)).1,
   (authenticate_full_record (fun pw h => pw == h) 0
      [⟨"alice", "a@x.com", "stored-hash"⟩] "a@x.com" "stored-hash"
      ⟨"alice", "a@x.com", "stored-hash"⟩ (by decide) (by decide)).2⟩

theorem deleteFirst_not_found {id email : String} :
    ∀ (hist : List HistEntry),
      (∀ e ∈ hist, ¬(e.id = id ∧ e.user_email = email)) →
      deleteFirst hist id email = (0, hist)
  | [], _ => rfl
  | e :: rest, h => by
    have hene : ¬(e.id = id ∧ e.user_email = email) :=
      h e (List.mem_cons_self e rest)
    have hcond : (e.id == id && e.user_email == email) = false := by
      cases hid : (e.id == id)
      · rfl
      · cases hem : (e.user_email == email)
        · rfl
        · exact absurd ⟨eq_of_beq hid, eq_of_beq hem⟩ hene
    have hrest : deleteFirst rest id email = (0, rest) :=
      deleteFirst_not_found rest (fun x hx => h x (List.mem_cons_of_mem e hx))
    simp [deleteFirst, hcond, hrest]

theorem deleteFirst_found {id email : String} :
    ∀ (hist : List HistEntry),
      (∃ e ∈ hist, e.id = id ∧ e.user_email = email) →
      ∃ l1 e l2, hist = l1 ++ e :: l2 ∧ e.id = id ∧ e.user_email = email ∧
        (∀ x ∈ l1, ¬(x.id = id ∧ x.user_email = email)) ∧
        deleteFirst hist id email = (1, l1 ++ l2)
  | [], h => absurd h (by simp)
  | e :: rest, h => by
    cases hcond : (e.id == id && e.user_email == email) with
    | true =>
      rw [Bool.and_eq_true] at hcond
      refine ⟨[], e, rest, rfl, eq_of_beq hcond.1, eq_of_beq hcond.2,
        by simp, ?_⟩
      simp [deleteFirst, hcond.1, hcond.2]
    | false =>
      have hene : ¬(e.id = id ∧ e.user_email = email) := by
        intro hc
        simp [hc.1, hc.2] at hcond
      have hrest : ∃ x ∈ rest, x.id = id ∧ x.user_email = email := by
        obtain ⟨x, hx, hxid⟩ := h
        rcases List.mem_cons.mp hx with heq | hmem
        · exact absurd (heq ▸ hxid) hene
        · exact ⟨x, hmem, hxid⟩
      obtain ⟨l1, x, l2, hsplit, hxid, hxem, hl1, hdel⟩ :=
        deleteFirst_found rest hrest
      refine ⟨e :: l1, x, l2, by rw [hsplit, List.cons_append], hxid, hxem, ?_, ?_⟩
      · intro y hy
        rcases List.mem_cons.mp hy with heq | hmem
        · exact heq ▸ hene
        · exact hl1 y hmem
      · simp [deleteFirst, hcond, hdel]

/-- C7 (confirmed): for a well-formed entry id, when no stored entry has
both that id and the authenticated user's email as owner — the id is
absent, or the owning email differs — delete_history yields the single
404 "Entry not found or unauthorized" outcome (one fixed value covering
both causes, so they are indistinguishable) and the history store is
returned unchanged, any entry with that id included; and the delete
succeeds exactly when an entry with that id and owner exists, in which
case the first such entry is removed. -/
theorem delete_history_spec (hist : List HistEntry) (email entry_id : String)
    (hv : validObjectId entry_id = true) :
    ((∀ e ∈ hist, ¬(e.id = entry_id ∧ e.user_email = email)) →
      delete_history hist email entry_id
        = (Except.error ⟨404, "Entry not found or unauthorized"⟩, hist))
  ∧ ((∃ e ∈ hist, e.id = entry_id ∧ e.user_email = email) →
      ∃ l1 e l2, hist = l1 ++ e :: l2 ∧ e.id = entry_id ∧ e.user_email = email ∧
        (∀ x ∈ l1, ¬(x.id = entry_id ∧ x.user_email = email)) ∧
        delete_history hist email entry_id
          = (Except.ok "History entry deleted", l1 ++ l2)) := by
  constructor
  · intro hnone
    have hdel : deleteFirst hist entry_id email = (0, hist) :=
      deleteFirst_not_found hist hnone
    simp [delete_history, hv, hdel]
  · intro hsome
    obtain ⟨l1, e, l2, hsplit, hid, hem, hl1, hdel⟩ :=
      deleteFirst_found hist hsome
    refine ⟨l1, e, l2, hsplit, hid, hem, hl1, ?_⟩
    simp [delete_history, hv, hdel]

/-- C7 (witness): the theorem applied to a one-entry store owned by
bob: alice's delete of the entry yields the 404 outcome with the store
unchanged, and bob's delete of the same entry succeeds and removes it. -/
theorem delete_history_spec_witness :
    delete_history
      [⟨"0123456789abcdef01234567", "bob@x.com", "c", "l", JVal.null, JVal.null, 5⟩]
      "alice@x.com" "0123456789abcdef01234567"
      = (Except.error ⟨404, "Entry not found or unauthorized"⟩,
         [⟨"0123456789abcdef01234567", "bob@x.com", "c", "l", JVal.null, JVal.null, 5⟩])
  ∧ ∃ l1 e l2,
      ([⟨"0123456789abcdef01234567", "bob@x.com", "c", "l", JVal.null, JVal.null, 5⟩]
        : List HistEntry) = l1 ++ e :: l2
      ∧ e.id = "0123456789abcdef01234567" ∧ e.user_email = "bob@x.com"
      ∧ (∀ x ∈ l1, ¬(x.id = "0123456789abcdef01234567" ∧ x.user_email = "bob@x.com"))
      ∧ delete_history
          [⟨"0123456789abcdef01234567", "bob@x.com", "c", "l", JVal.null, JVal.null, 5⟩]
          "bob@x.com" "0123456789abcdef01234567"
          = (Except.ok "History entry deleted", l1 ++ l2) :=
  ⟨(delete_history_spec
      [⟨"0123456789abcdef01234567", "bob@x.com", "c", "l", JVal.null, JVal.null, 5⟩]
      "alice@x.com" "0123456789abcdef01234567" (by decide)).1
      (by
        intro e he hc
        rw [List.mem_singleton] at he
        have : e.user_email = "bob@x.com" := by rw [he]
        rw [this] at hc
        exact absurd hc.2 (by decide)),
   (delete_history_spec
      [⟨"0123456789abcdef01234567", "bob@x.com", "c", "l", JVal.null, JVal.null, 5⟩]
      "bob@x.com" "0123456789abcdef01234567" (by decide)).2
      ⟨⟨"0123456789abcdef01234567", "bob@x.com", "c", "l", JVal.null, JVal.null, 5⟩,
        List.mem_singleton.mpr rfl, rfl, rfl⟩⟩

/-- C8 (confirmed): GET /history returns exactly the stored entries whose
owner email equals the authenticated user's email — a permutation of the
ownership filter, so no entry of another user is ever included — ordered
newest first by timestamp. -/
theorem get_history_spec (hist : List HistEntry) (email : String) :
    List.Perm (get_history hist email)
      (hist.filter (fun e => e.user_email == email))
  ∧ (∀ e ∈ get_history hist email, e.user_email = email)
  ∧ List.Sorted newestFirst (get_history hist email) := by
  refine ⟨List.perm_insertionSort newestFirst _, ?_, ?_⟩
  · intro e he
    rw [get_history, List.mem_insertionSort] at he
    exact eq_of_beq (List.mem_filter.mp he).2
  · exact List.sorted_insertionSort newestFirst _

/-- C8 (witness): the theorem applied to a two-entry store, checking the
ownership of a returned entry and the ordering of the result. -/
theorem get_history_spec_witness :
    HistEntry.user_email
      ⟨"id1", "a@x.com", "c", "l", JVal.null, JVal.null, 3⟩ = "a@x.com"
  ∧ List.Sorted newestFirst
      (get_history [⟨"id1", "a@x.com", "c", "l", JVal.null, JVal.null, 3⟩,
        ⟨"id2", "b@x.com", "c", "l", JVal.null, JVal.null, 9⟩] "a@x.com") :=
  ⟨(get_history_spec [⟨"id1", "a@x.com", "c", "l", JVal.null, JVal.null, 3⟩,
      ⟨"id2", "b@x.com", "c", "l", JVal.null, JVal.null, 9⟩] "a@x.com").2.1
      ⟨"id1", "a@x.com", "c", "l", JVal.null, JVal.null, 3⟩
      (List.mem_singleton.mpr rfl),
   (get_history_spec [⟨"id1", "a@x.com", "c", "l", JVal.null, JVal.null, 3⟩,
      ⟨"id2", "b@x.com", "c", "l", JVal.null, JVal.null, 9⟩] "a@x.com").2.2⟩

/-- C9 (counterexample): in the standalone /quiz handler the bare
`json.loads(quiz_text)` has no surrounding parse guard, so an LLM quiz
text that fails to parse raises, the blanket `except` maps it to a 500,
and the request fails; and the quiz fallback inside /generate substitutes
{"concept": ..., "questions": []}, in which the raw text "not json" is
not preserved in any field. -/
theorem llm_parse_degradation_cex :
    generate_quiz
      (fun _ => Except.error "Expecting value: line 1 column 1 (char 0)")
      "not json" "photosynthesis" [("analogy", JVal.str "x")]
      = Except.error ⟨500, "Expecting value: line 1 column 1 (char 0)"⟩
  ∧ normalize_quiz
      (fun _ => Except.error "Expecting value: line 1 column 1 (char 0)")
      "recursion" "not json"
      = JVal.obj [("concept", JVal.str "recursion"), ("questions", JVal.arr [])] :=
  ⟨rfl, rfl⟩

/-- C9 (amended): inside /generate an analogy text that fails to parse as
JSON (after stripping and fence-stripping) is replaced by the degraded
object carrying the raw (fence-stripped) text in the analogy field with
the other structured fields empty, and the request still succeeds; a quiz
text that fails to parse there is replaced by {"concept": ...,
"questions": []} — without the raw text — and the request still
succeeds; but in the standalone /quiz handler a quiz text that fails to
parse fails the request with a 500 error carrying the parser message. -/
theorem llm_parse_degradation (parse : String → Except String JVal)
    (aiText quizText newId email concept level msg msg2 : String)
    (now : Nat) (hist : List HistEntry)
    (hc : ¬ pyStrip concept = "")
    (ha : parse (stripFence (pyStrip aiText)) = Except.error msg) :
    normalize_ai parse aiText
      = JVal.obj [("tagline", JVal.str ""),
          ("analogy", JVal.str (stripFence (pyStrip aiText))),
          ("mapping", JVal.arr []), ("limitations", JVal.arr [])]
  ∧ (generate parse aiText quizText newId now hist email concept level).1
      = Except.ok ⟨pyStrip concept, level, email, normalize_ai parse aiText,
          normalize_quiz parse (pyStrip concept) quizText⟩
  ∧ (parse (stripFence (pyStrip quizText)) = Except.error msg2 →
      normalize_quiz parse (pyStrip concept) quizText
        = JVal.obj [("concept", JVal.str (pyStrip concept)),
            ("questions", JVal.arr [])])
  ∧ (∀ res : List (String × JVal), res.isEmpty = false →
      parse (stripFence (pyStrip quizText)) = Except.error msg2 →
      generate_quiz parse quizText concept res = Except.error ⟨500, msg2⟩) := by
  refine ⟨?_, ?_, ?_, ?_⟩
  · simp [normalize_ai, ha]
  · simp [generate, generate_inner, hc]
  · intro hq
    simp [normalize_quiz, hq]
  · intro res hres hq
    have hcb : decide (pyStrip concept = "") = false := decide_eq_false hc
    simp [generate_quiz, hcb, hres, hq, tryWrap500, strOfPyExn]

/-- C9 (witness): the amended theorem applied to a parser that always
fails with "boom", the concept "recursion", and a one-entry analogy
result. -/
theorem llm_parse_degradation_witness :
    normalize_ai (fun _ => Except.error "boom") "raw analogy"
      = JVal.obj [("tagline", JVal.str ""),
          ("analogy", JVal.str (stripFence (pyStrip "raw analogy"))),
          ("mapping", JVal.arr []), ("limitations", JVal.arr [])]
  ∧ (generate (fun _ => Except.error "boom") "raw analogy" "raw quiz" "id0" 0 []
      "a@x.com" "recursion" "beginner").1
      = Except.ok ⟨pyStrip "recursion", "beginner", "a@x.com",
          normalize_ai (fun _ => Except.error "boom") "raw analogy",
          normalize_quiz (fun _ => Except.error "boom") (pyStrip "recursion")
            "raw quiz"⟩
  ∧ normalize_quiz (fun _ => Except.error "boom") (pyStrip "recursion") "raw quiz"
      = JVal.obj [("concept", JVal.str (pyStrip "recursion")),
          ("questions", JVal.arr [])]
  ∧ generate_quiz (fun _ => Except.error "boom") "raw quiz" "recursion"
      [("analogy", JVal.str "x")] = Except.error ⟨500, "boom"⟩ :=
  ⟨(llm_parse_degradation (fun _ => Except.error "boom") "raw analogy" "raw quiz"
      "id0" "a@x.com" "recursion" "beginner" "boom" "boom" 0 []
      (by decide) rfl).1,
   (llm_parse_degradation (fun _ => Except.error "boom") "raw analogy" "raw quiz"
      "id0" "a@x.com" "recursion" "beginner" "boom" "boom" 0 []
      (by decide) rfl).2.1,
   (llm_parse_degradation (fun _ => Except.error "boom") "raw analogy" "raw quiz"
      "id0" "a@x.com" "recursion" "beginner" "boom" "boom" 0 []
      (by decide) rfl).2.2.1 rfl,
   (llm_parse_degradation (fun _ => Except.error "boom") "raw analogy" "raw quiz"
      "id0" "a@x.com" "recursion" "beginner" "boom" "boom" 0 []
      (by decide) rfl).2.2.2 [("analogy", JVal.str "x")] rfl rfl⟩

theorem setdefault_hasKey (fs : List (String × JVal)) (k : String) (v : JVal) :
    (setdefault fs k v).any (fun kv => kv.1 == k) = true := by
  unfold setdefault
  cases h : fs.any (fun kv => kv.1 == k)
  · simp [h, List.any_append]
  · simp [h]

theorem setdefault_preserves {fs : List (String × JVal)} {k2 : String}
    (k : String) (v : JVal)
    (h : fs.any (fun kv => kv.1 == k2) = true) :
    (setdefault fs k v).any (fun kv => kv.1 == k2) = true := by
  unfold setdefault
  cases hp : fs.any (fun kv => kv.1 == k)
  · simp [List.any_append, h]
  · simp [h]

theorem normalize_ai_keys (parse : String → Except String JVal)
    (aiText : String) :
    hasKey (normalize_ai parse aiText) "tagline" = true
  ∧ hasKey (normalize_ai parse aiText) "analogy" = true
  ∧ hasKey (normalize_ai parse aiText) "mapping" = true
  ∧ hasKey (normalize_ai parse aiText) "limitations" = true := by
  cases hp : parse (stripFence (pyStrip aiText)) with
  | error m => simp [normalize_ai, hp, hasKey]
  | ok j =>
    cases j with
    | obj fs =>
      simp only [normalize_ai, hp, hasKey]
      refine ⟨?_, ?_, ?_, ?_⟩
      · exact setdefault_preserves _ _ (setdefault_preserves _ _
          (setdefault_preserves _ _ (setdefault_hasKey fs "tagline" _)))
      · exact setdefault_preserves _ _ (setdefault_preserves _ _
          (setdefault_hasKey _ "analogy" _))
      · exact setdefault_preserves _ _ (setdefault_hasKey _ "mapping" _)
      · exact setdefault_hasKey _ "limitations" _
    | null => simp [normalize_ai, hp, hasKey]
    | bool b => simp [normalize_ai, hp, hasKey]
    | num n => simp [normalize_ai, hp, hasKey]
    | str s => simp [normalize_ai, hp, hasKey]
    | arr xs => simp [normalize_ai, hp, hasKey]

/-- C10 (confirmed): every 200 response of POST /generate carries a
result object containing all four keys tagline, analogy, mapping and
limitations — whether the LLM text parsed as a JSON object (missing keys
are filled by setdefault), parsed as a non-object, or failed to parse
(degraded fallback). -/
theorem generate_result_keys (parse : String → Except String JVal)
    (aiText quizText newId email concept level : String) (now : Nat)
    (hist : List HistEntry) (r : GenResponse) (h2 : List HistEntry)
    (hok : generate parse aiText quizText newId now hist email concept level
      = (Except.ok r, h2)) :
    hasKey r.result "tagline" = true
  ∧ hasKey r.result "analogy" = true
  ∧ hasKey r.result "mapping" = true
  ∧ hasKey r.result "limitations" = true := by
  by_cases hc : pyStrip concept = ""
  · simp [generate, generate_inner, hc] at hok
  · simp [generate, generate_inner, hc] at hok
    have hr : r.result = normalize_ai parse aiText := by
      rw [← hok.1]
    rw [hr]
    exact normalize_ai_keys parse aiText

/-- C10 (witness): the theorem applied to a concrete run with a parser
that fails, whose 200 response result is the degraded object. -/
theorem generate_result_keys_witness :
    hasKey (GenResponse.result ⟨"c", "lvl", "a@x.com",
      JVal.obj [("tagline", JVal.str ""), ("analogy", JVal.str "t"),
        ("mapping", JVal.arr []), ("limitations", JVal.arr [])],
      JVal.obj [("concept", JVal.str "c"), ("questions", JVal.arr [])]⟩)
      "tagline" = true
  ∧ hasKey (GenResponse.result ⟨"c", "lvl", "a@x.com",
      JVal.obj [("tagline", JVal.str ""), ("analogy", JVal.str "t"),
        ("mapping", JVal.arr []), ("limitations", JVal.arr [])],
      JVal.obj [("concept", JVal.str "c"), ("questions", JVal.arr [])]⟩)
      "analogy" = true
  ∧ hasKey (GenResponse.result ⟨"c", "lvl", "a@x.com",
      JVal.obj [("tagline", JVal.str ""), ("analogy", JVal.str "t"),
        ("mapping", JVal.arr []), ("limitations", JVal.arr [])],
      JVal.obj [("concept", JVal.str "c"), ("questions", JVal.arr [])]⟩)
      "mapping" = true
  ∧ hasKey (GenResponse.result ⟨"c", "lvl", "a@x.com",
      JVal.obj [("tagline", JVal.str ""), ("analogy", JVal.str "t"),
        ("mapping", JVal.arr []), ("limitations", JVal.arr [])],
      JVal.obj [("concept", JVal.str "c"), ("questions", JVal.arr [])]⟩)
      "limitations" = true :=
  generate_result_keys (fun _ => Except.error "e") "t" "q" "id0" "a@x.com"
    "c" "lvl" 0 []
    ⟨"c", "lvl", "a@x.com",
      JVal.obj [("tagline", JVal.str ""), ("analogy", JVal.str "t"),
        ("mapping", JVal.arr []), ("limitations", JVal.arr [])],
      JVal.obj [("concept", JVal.str "c"), ("questions", JVal.arr [])]⟩
    [⟨"id0", "a@x.com", "c", "lvl",
      JVal.obj [("tagline", JVal.str ""), ("analogy", JVal.str "t"),
        ("mapping", JVal.arr []), ("limitations", JVal.arr [])],
      JVal.obj [("concept", JVal.str "c"), ("questions", JVal.arr [])], 0⟩]
    rfl
